import Mathlib

/-!
Verification development for the hotel booking bot (app/dao, app/bot, app/api).

The data model follows `app/dao/models.py`: tables `users`, `rooms`, `bookings`,
`pays`.  Dates are modelled as (year, month, day) triples with the lexicographic
order used by Python `datetime.date`.  DAO methods from `app/dao/dao.py` are
embedded as pure functions over an explicit database state; a method that can
hit a storage error (`SQLAlchemyError`) takes a `db_error` flag standing for
"the query raised".  Python exceptions are modelled with `Except`: a value that
a method raises internally and catches is visible in the `_body` function and
absorbed in the outer function, mirroring the `try/except` blocks of the source.
-/

namespace HotelApp

/-- Calendar date, as stored in the `Date` columns of `bookings`
(`date_start`, `date_end` in `app/dao/models.py`). -/
structure Date where
  year : Int
  month : Int
  day : Int
deriving DecidableEq, Repr

/-- Python `date` comparison `a < b`: lexicographic on (year, month, day). -/
def Date.ltb (a b : Date) : Bool :=
  decide (a.year < b.year) ||
    (a.year == b.year &&
      (decide (a.month < b.month) ||
        (a.month == b.month && decide (a.day < b.day))))

/-- Python `date` comparison `a <= b`. -/
def Date.leb (a b : Date) : Bool :=
  Date.ltb a b || a == b

theorem Date.ltb_iff (a b : Date) :
    Date.ltb a b = true ↔
      (a.year < b.year ∨
        (a.year = b.year ∧
          (a.month < b.month ∨ (a.month = b.month ∧ a.day < b.day)))) := by
  simp [Date.ltb]

theorem Date.leb_iff (a b : Date) :
    Date.leb a b = true ↔
      (Date.ltb a b = true ∨ a = b) := by
  simp [Date.leb]

/-- Totality of the date order: `a <= b` fails exactly when `b < a`. -/
theorem Date.leb_eq_false_iff (a b : Date) :
    Date.leb a b = false ↔ Date.ltb b a = true := by
  cases a with
  | mk ay am ad =>
    cases b with
    | mk by_ bm bd =>
      simp [Date.leb, Date.ltb, Date.mk.injEq]
      constructor
      · intro h
        omega
      · intro h
        omega

/-- Row of the `users` table (`app/dao/models.py`, class `User`). -/
structure User where
  id : Int
  username : Option String
  phone_nom : Option String
  description : Option String
deriving DecidableEq, Repr

/-- Row of the `rooms` table (`app/dao/models.py`, class `Room`). -/
structure Room where
  id : Int
  url_photo : String
  description : Option String
deriving DecidableEq, Repr

/-- Row of the `bookings` table (`app/dao/models.py`, class `Booking`).
Note there is no stored "total paid" column: payment totals are always
computed from the `pays` table. -/
structure Booking where
  id : Int
  user_id : Int
  room_id : Int
  date_start : Date
  date_end : Date
  status : String
  cost : Int
deriving DecidableEq, Repr

/-- Row of the `pays` table (`app/dao/models.py`, class `Pay`). -/
structure Pay where
  id : Int
  summ : Int
  id_booking : Int
deriving DecidableEq, Repr

/-- The database state: all four tables. -/
structure DBState where
  users : List User
  rooms : List Room
  bookings : List Booking
  pays : List Pay
deriving DecidableEq, Repr

/-- The exceptions that appear in `BookingDAO.check_available_bookings`:
`ValueError` (raised by the range guard) and `SQLAlchemyError`
(raised by the storage layer). -/
inductive PyExc where
  | valueError
  | sqlalchemyError
deriving DecidableEq, Repr

/-- The `overlap_condition` of `BookingDAO.check_available_bookings`
(`app/dao/dao.py` lines 32-36): same room, `date_start < booking_date_end`
and `date_end > booking_date_start`.  It does not mention `status`. -/
def overlap_condition (room_id : Int) (booking_date_start booking_date_end : Date)
    (b : Booking) : Bool :=
  b.room_id == room_id &&
    Date.ltb b.date_start booking_date_end &&
    Date.ltb booking_date_start b.date_end

/-- Body of the `try:` block of `check_available_bookings`: raises `ValueError`
when `booking_date_start >= booking_date_end`, raises `SQLAlchemyError` when the
query does (the `db_error` flag), and otherwise returns
`not result.scalars().first()` over the filtered `bookings` table. -/
def check_available_bookings_body (db : DBState) (db_error : Bool) (room_id : Int)
    (booking_date_start booking_date_end : Date) : Except PyExc Bool :=
  if Date.leb booking_date_end booking_date_start then
    Except.error PyExc.valueError
  else if db_error then
    Except.error PyExc.sqlalchemyError
  else
    Except.ok
      (((db.bookings.filter
          (overlap_condition room_id booking_date_start booking_date_end)).head?).isNone)

/-- `BookingDAO.check_available_bookings` (`app/dao/dao.py` lines 26-48).
Both `except` arms only log, so the function falls through and returns
Python `None`; a normal result is `some` of the boolean. -/
def check_available_bookings (db : DBState) (db_error : Bool) (room_id : Int)
    (booking_date_start booking_date_end : Date) : Except PyExc (Option Bool) :=
  match check_available_bookings_body db db_error room_id booking_date_start booking_date_end with
  | Except.ok b => Except.ok (some b)
  | Except.error PyExc.valueError => Except.ok none
  | Except.error PyExc.sqlalchemyError => Except.ok none

/-- `check_available_bookings` viewed as a state transformer: the method only
executes a `SELECT`, so the database state it returns is the one it received. -/
def check_available_bookings_run (db : DBState) (db_error : Bool) (room_id : Int)
    (booking_date_start booking_date_end : Date) :
    DBState × Except PyExc (Option Bool) :=
  (db, check_available_bookings db db_error room_id booking_date_start booking_date_end)

theorem overlap_condition_eq_true (room_id : Int) (ds de : Date) (b : Booking) :
    overlap_condition room_id ds de b = true ↔
      (b.room_id = room_id ∧ Date.ltb b.date_start de = true ∧
        Date.ltb ds b.date_end = true) := by
  simp [overlap_condition, and_assoc]

theorem check_available_bookings_of_valid (db : DBState) (room_id : Int)
    (ds de : Date) (h : Date.ltb ds de = true) :
    check_available_bookings db false room_id ds de =
      Except.ok (some (((db.bookings.filter (overlap_condition room_id ds de)).head?).isNone)) := by
  have hg : Date.leb de ds = false := (Date.leb_eq_false_iff de ds).mpr h
  simp [check_available_bookings, check_available_bookings_body, hg]

/-- C1: for a valid half-open request interval, the checker answers true iff no
Booking row of that room satisfies `date_start < requested_end` and
`date_end > requested_start` (both strict), so back-to-back intervals are
available while identical, nested and partially overlapping ones are not. -/
theorem check_available_iff_no_overlap (db : DBState) (room_id : Int)
    (ds de : Date) (h : Date.ltb ds de = true) :
    check_available_bookings db false room_id ds de = Except.ok (some true) ↔
      ∀ b ∈ db.bookings, ¬(b.room_id = room_id ∧
        Date.ltb b.date_start de = true ∧ Date.ltb ds b.date_end = true) := by
  rw [check_available_bookings_of_valid db room_id ds de h, Except.ok.injEq,
    Option.some.injEq, Option.isNone_iff_eq_none, List.head?_eq_none_iff,
    List.filter_eq_nil_iff]
  simp only [overlap_condition_eq_true]

/-- Witness for the C1 theorem: the spec's back-to-back scenario, one booked
row `[2024-01-01, 2024-01-05)` on room 1 and candidate `[2024-01-05, 2024-01-10)`. -/
theorem check_available_iff_no_overlap_witness :
    Date.ltb ⟨2024, 1, 5⟩ ⟨2024, 1, 10⟩ = true ∧
      (check_available_bookings
          ⟨[], [], [⟨1, 1, 1, ⟨2024, 1, 1⟩, ⟨2024, 1, 5⟩, "booked", 0⟩], []⟩
          false 1 ⟨2024, 1, 5⟩ ⟨2024, 1, 10⟩ = Except.ok (some true) ↔
        ∀ b ∈ ([⟨1, 1, 1, ⟨2024, 1, 1⟩, ⟨2024, 1, 5⟩, "booked", 0⟩] : List Booking),
          ¬(b.room_id = 1 ∧ Date.ltb b.date_start ⟨2024, 1, 10⟩ = true ∧
            Date.ltb ⟨2024, 1, 5⟩ b.date_end = true)) :=
  ⟨by decide,
    check_available_iff_no_overlap
      ⟨[], [], [⟨1, 1, 1, ⟨2024, 1, 1⟩, ⟨2024, 1, 5⟩, "booked", 0⟩], []⟩
      1 ⟨2024, 1, 5⟩ ⟨2024, 1, 10⟩ (by decide)⟩

/-- C2 counterexample: a lone Booking whose status is `canceled` on
`[2024-03-01, 2024-03-10)` still blocks the candidate `[2024-03-02, 2024-03-05)`:
the checker answers `false`, while the claim says a canceled booking never
causes `false`. -/
theorem canceled_booking_blocks :
    (((⟨[], [], [⟨1, 1, 1, ⟨2024, 3, 1⟩, ⟨2024, 3, 10⟩, "canceled", 0⟩], []⟩ : DBState)).bookings.all
        (fun b => b.status == "canceled")) = true ∧
      check_available_bookings
          ⟨[], [], [⟨1, 1, 1, ⟨2024, 3, 1⟩, ⟨2024, 3, 10⟩, "canceled", 0⟩], []⟩
          false 1 ⟨2024, 3, 2⟩ ⟨2024, 3, 5⟩ = Except.ok (some false) :=
  ⟨rfl, rfl⟩

theorem filter_overlap_map_status (l : List Booking) (f : Booking → String)
    (room_id : Int) (ds de : Date) :
    (l.map (fun b => { b with status := f b })).filter (overlap_condition room_id ds de) =
      (l.filter (overlap_condition room_id ds de)).map (fun b => { b with status := f b }) := by
  induction l with
  | nil => rfl
  | cons a t ih =>
    by_cases h : overlap_condition room_id ds de a = true
    · have h2 : overlap_condition room_id ds de { a with status := f a } = true := h
      simp only [List.map_cons, List.filter_cons, h, h2, if_true, ih]
    · have hf : overlap_condition room_id ds de a = false := by
        simpa using h
      have h2 : overlap_condition room_id ds de { a with status := f a } = false := hf
      simp only [List.map_cons, List.filter_cons, hf, h2, Bool.false_eq_true, if_false, ih]

/-- C2 (amended): `check_available_bookings` never reads the `status` column:
rewriting every booking's status arbitrarily (e.g. to or from `canceled` or
`completed`) leaves the result unchanged, so any overlapping Booking row
blocks, whatever its status. -/
theorem check_ignores_status (db : DBState) (f : Booking → String) (db_error : Bool)
    (room_id : Int) (ds de : Date) :
    check_available_bookings
        ⟨db.users, db.rooms, db.bookings.map (fun b => { b with status := f b }), db.pays⟩
        db_error room_id ds de =
      check_available_bookings db db_error room_id ds de := by
  unfold check_available_bookings check_available_bookings_body
  by_cases hg : Date.leb de ds = true
  · simp [hg]
  · by_cases he : db_error = true
    · simp [hg, he]
    · simp only [hg, he, Bool.false_eq_true, if_false]
      rw [filter_overlap_map_status, List.head?_map]
      cases (db.bookings.filter (overlap_condition room_id ds de)).head? <;> rfl

/-- C3 counterexample: for an empty range (and for a reversed range) the
checker terminates normally and hands the caller Python `None`
(`Except.ok none`), not a raised error: the internal `ValueError` is caught
inside the method. -/
theorem invalid_range_no_error_to_caller :
    check_available_bookings ⟨[], [], [], []⟩ false 7 ⟨2024, 3, 5⟩ ⟨2024, 3, 5⟩ =
        Except.ok none ∧
      check_available_bookings ⟨[], [], [], []⟩ false 7 ⟨2024, 3, 7⟩ ⟨2024, 3, 5⟩ =
        Except.ok none :=
  ⟨rfl, rfl⟩

/-- C3 (amended): when `requested_start >= requested_end` the guard raises a
`ValueError` before the booking query runs (the body errors for every database
state and even when the storage layer would fail), the method catches it, and
the caller receives `None` — never a propagated exception — regardless of
existing bookings. -/
theorem invalid_range_rejected_before_query (db : DBState) (db_error : Bool)
    (room_id : Int) (ds de : Date) (h : Date.leb de ds = true) :
    check_available_bookings_body db db_error room_id ds de =
        Except.error PyExc.valueError ∧
      check_available_bookings db db_error room_id ds de = Except.ok none := by
  constructor
  · simp [check_available_bookings_body, h]
  · simp [check_available_bookings, check_available_bookings_body, h]

/-- Witness for the C3 amended theorem at a concrete reversed range with a
nonempty bookings table and a failing storage layer. -/
theorem invalid_range_rejected_before_query_witness :
    Date.leb ⟨2024, 3, 5⟩ ⟨2024, 3, 9⟩ = true ∧
      (check_available_bookings_body
          ⟨[], [], [⟨1, 1, 1, ⟨2024, 3, 1⟩, ⟨2024, 3, 10⟩, "booked", 0⟩], []⟩
          true 1 ⟨2024, 3, 9⟩ ⟨2024, 3, 5⟩ = Except.error PyExc.valueError ∧
        check_available_bookings
            ⟨[], [], [⟨1, 1, 1, ⟨2024, 3, 1⟩, ⟨2024, 3, 10⟩, "booked", 0⟩], []⟩
            true 1 ⟨2024, 3, 9⟩ ⟨2024, 3, 5⟩ = Except.ok none) :=
  ⟨by decide,
    invalid_range_rejected_before_query
      ⟨[], [], [⟨1, 1, 1, ⟨2024, 3, 1⟩, ⟨2024, 3, 10⟩, "booked", 0⟩], []⟩
      true 1 ⟨2024, 3, 9⟩ ⟨2024, 3, 5⟩ (by decide)⟩

/-- C5 counterexample: with a rooms table that does not contain room 5, the
checker still returns a normal availability verdict (`true`) for room 5
instead of failing with a not-found error. -/
theorem unknown_room_gets_verdict :
    (((⟨[], [⟨1, "url", none⟩], [], []⟩ : DBState)).rooms.all (fun r => !(r.id == 5))) = true ∧
      check_available_bookings ⟨[], [⟨1, "url", none⟩], [], []⟩ false 5
          ⟨2024, 3, 1⟩ ⟨2024, 3, 2⟩ = Except.ok (some true) :=
  ⟨rfl, rfl⟩

/-- C5 (amended): the checker never consults the `rooms` (or `users`, `pays`)
table, so a `room_id` with no matching Room gets an ordinary verdict; when no
Booking row carries that `room_id` and the range is valid, the verdict is
`true`. -/
theorem check_ignores_rooms_table (users users' : List User) (rooms rooms' : List Room)
    (bookings : List Booking) (pays pays' : List Pay) (db_error : Bool)
    (room_id : Int) (ds de : Date) :
    check_available_bookings ⟨users, rooms, bookings, pays⟩ db_error room_id ds de =
        check_available_bookings ⟨users', rooms', bookings, pays'⟩ db_error room_id ds de ∧
      ((bookings.all (fun b => !(b.room_id == room_id))) = true →
        Date.ltb ds de = true →
        check_available_bookings ⟨users, rooms, bookings, pays⟩ false room_id ds de =
          Except.ok (some true)) := by
  constructor
  · rfl
  · intro hall hlt
    rw [check_available_bookings_of_valid _ _ _ _ hlt]
    have hfil : ((⟨users, rooms, bookings, pays⟩ : DBState).bookings.filter
        (overlap_condition room_id ds de)) = [] := by
      rw [List.filter_eq_nil_iff]
      intro b hb
      have hne : (b.room_id == room_id) = false := by
        simpa using List.all_eq_true.mp hall b hb
      simp [overlap_condition, hne]
    rw [hfil]
    rfl

/-- Witness for the C5 amended theorem: concrete distinct table contents, a
room id (5) absent from the bookings, and a valid range. -/
theorem check_ignores_rooms_table_witness :
    (check_available_bookings ⟨[], [⟨1, "url", none⟩], [], []⟩ false 5
          ⟨2024, 3, 1⟩ ⟨2024, 3, 2⟩ =
        check_available_bookings ⟨[⟨9, none, none, none⟩], [], [], [⟨1, 100, 1⟩]⟩ false 5
          ⟨2024, 3, 1⟩ ⟨2024, 3, 2⟩ ∧
      ((([] : List Booking).all (fun b => !(b.room_id == 5))) = true →
        Date.ltb ⟨2024, 3, 1⟩ ⟨2024, 3, 2⟩ = true →
        check_available_bookings ⟨[], [⟨1, "url", none⟩], [], []⟩ false 5
            ⟨2024, 3, 1⟩ ⟨2024, 3, 2⟩ = Except.ok (some true))) :=
  check_ignores_rooms_table [] [⟨9, none, none, none⟩] [⟨1, "url", none⟩] [] [] [] [⟨1, 100, 1⟩]
    false 5 ⟨2024, 3, 1⟩ ⟨2024, 3, 2⟩

/-- C6: the checker is room-scoped: a Booking row on a different room never
changes the verdict, whatever its interval or status. -/
theorem check_room_scoped (db : DBState) (b : Booking) (db_error : Bool)
    (room_id : Int) (ds de : Date) (h : b.room_id ≠ room_id) :
    check_available_bookings ⟨db.users, db.rooms, b :: db.bookings, db.pays⟩
        db_error room_id ds de =
      check_available_bookings db db_error room_id ds de := by
  have hcond : overlap_condition room_id ds de b = false := by
    simp [overlap_condition, h]
  unfold check_available_bookings check_available_bookings_body
  by_cases hg : Date.leb de ds = true
  · simp [hg]
  · by_cases he : db_error = true
    · simp [hg, he]
    · simp only [hg, he, Bool.false_eq_true, if_false]
      rw [List.filter_cons, hcond]
      simp

/-- Witness for the C6 theorem: an identical overlapping interval on room 2
does not block room 1. -/
theorem check_room_scoped_witness :
    (⟨5, 1, 2, ⟨2024, 3, 1⟩, ⟨2024, 3, 3⟩, "booked", 0⟩ : Booking).room_id ≠ (1 : Int) ∧
      check_available_bookings
          ⟨[], [], ⟨5, 1, 2, ⟨2024, 3, 1⟩, ⟨2024, 3, 3⟩, "booked", 0⟩ :: [], []⟩
          false 1 ⟨2024, 3, 1⟩ ⟨2024, 3, 3⟩ =
        check_available_bookings ⟨[], [], [], []⟩ false 1 ⟨2024, 3, 1⟩ ⟨2024, 3, 3⟩ :=
  ⟨by decide,
    check_room_scoped ⟨[], [], [], []⟩ ⟨5, 1, 2, ⟨2024, 3, 1⟩, ⟨2024, 3, 3⟩, "booked", 0⟩
      false 1 ⟨2024, 3, 1⟩ ⟨2024, 3, 3⟩ (by decide)⟩

/-- C7: `check_available_bookings` has no side effects: seen as a state
transformer it returns the database unchanged — every table, hence every row
and field, is identical before and after the call, on every input including
invalid ranges and storage errors. -/
theorem check_available_no_side_effects (db : DBState) (db_error : Bool)
    (room_id : Int) (ds de : Date) :
    (check_available_bookings_run db db_error room_id ds de).1 = db ∧
      (check_available_bookings_run db db_error room_id ds de).1.users = db.users ∧
      (check_available_bookings_run db db_error room_id ds de).1.rooms = db.rooms ∧
      (check_available_bookings_run db db_error room_id ds de).1.bookings = db.bookings ∧
      (check_available_bookings_run db db_error room_id ds de).1.pays = db.pays :=
  ⟨rfl, rfl, rfl, rfl, rfl⟩

/-- The row transformation of the SQL `UPDATE` in
`BookingDAO.complete_past_bookings` (`app/dao/dao.py` lines 208-236):
`WHERE date_start < now.date() AND status = "booked"` ... `SET status = "completed"`. -/
def complete_past_bookings_step (today : Date) (b : Booking) : Booking :=
  if Date.ltb b.date_start today && b.status == "booked" then
    { b with status := "completed" }
  else
    b

/-- `BookingDAO.complete_past_bookings`: applies the update to every row of the
`bookings` table; the other tables are untouched. -/
def complete_past_bookings (db : DBState) (today : Date) : DBState :=
  ⟨db.users, db.rooms, db.bookings.map (complete_past_bookings_step today), db.pays⟩

/-- `disable_booking` (`app/api/router.py` lines 10-12) just runs
`complete_past_bookings` in a fresh session. -/
def disable_booking (db : DBState) (today : Date) : DBState :=
  complete_past_bookings db today

/-- Per-row contract of the completion job. -/
def completion_row_contract (today : Date) (b b' : Booking) : Prop :=
  b'.id = b.id ∧ b'.user_id = b.user_id ∧ b'.room_id = b.room_id ∧
    b'.date_start = b.date_start ∧ b'.date_end = b.date_end ∧ b'.cost = b.cost ∧
    ((b.status = "booked" ∧ Date.ltb b.date_start today = true) →
      b'.status = "completed") ∧
    (¬(b.status = "booked" ∧ Date.ltb b.date_start today = true) → b' = b) ∧
    (b'.status = b.status ∨ b'.status = "completed")

theorem completion_step_contract (today : Date) (b : Booking) :
    completion_row_contract today b (complete_past_bookings_step today b) := by
  unfold complete_past_bookings_step completion_row_contract
  by_cases h : (Date.ltb b.date_start today && b.status == "booked") = true
  · rw [if_pos h]
    rw [Bool.and_eq_true, beq_iff_eq] at h
    refine ⟨rfl, rfl, rfl, rfl, rfl, rfl, fun _ => rfl, fun hc => ?_, Or.inr rfl⟩
    exact absurd ⟨h.2, h.1⟩ hc
  · rw [if_neg h]
    rw [Bool.and_eq_true, beq_iff_eq] at h
    refine ⟨rfl, rfl, rfl, rfl, rfl, rfl, fun hc => ?_, fun _ => rfl, Or.inl rfl⟩
    exact absurd ⟨hc.2, hc.1⟩ h

/-- C4: the completion job maps `booked` bookings whose `date_start` (the
policy variant the job uses) is strictly before today to `completed`; every
other booking — in particular one whose status is `canceled` or `completed` —
is returned unchanged, no field other than `status` ever changes, the only new
status value is `completed`, and the other tables are untouched. -/
theorem complete_past_bookings_spec (db : DBState) (today : Date) :
    (complete_past_bookings db today).users = db.users ∧
      (complete_past_bookings db today).rooms = db.rooms ∧
      (complete_past_bookings db today).pays = db.pays ∧
      List.Forall₂ (completion_row_contract today) db.bookings
        (complete_past_bookings db today).bookings := by
  refine ⟨rfl, rfl, rfl, ?_⟩
  show List.Forall₂ (completion_row_contract today) db.bookings
    (db.bookings.map (complete_past_bookings_step today))
  induction db.bookings with
  | nil => exact List.Forall₂.nil
  | cons a t ih => exact List.Forall₂.cons (completion_step_contract today a) ih

/-- Witness for the C4 theorem on a three-row table: a past booked stay, a
past canceled stay and a future booked stay, with today = 2024-05-01. -/
theorem complete_past_bookings_spec_witness :
    (complete_past_bookings
        ⟨[⟨1, none, none, none⟩], [⟨1, "url", none⟩],
          [⟨1, 1, 1, ⟨2024, 4, 1⟩, ⟨2024, 4, 5⟩, "booked", 10⟩,
            ⟨2, 1, 1, ⟨2024, 4, 1⟩, ⟨2024, 4, 5⟩, "canceled", 10⟩,
            ⟨3, 1, 1, ⟨2024, 6, 1⟩, ⟨2024, 6, 5⟩, "booked", 10⟩],
          [⟨1, 100, 1⟩]⟩ ⟨2024, 5, 1⟩).users = [⟨1, none, none, none⟩] ∧
      (complete_past_bookings
        ⟨[⟨1, none, none, none⟩], [⟨1, "url", none⟩],
          [⟨1, 1, 1, ⟨2024, 4, 1⟩, ⟨2024, 4, 5⟩, "booked", 10⟩,
            ⟨2, 1, 1, ⟨2024, 4, 1⟩, ⟨2024, 4, 5⟩, "canceled", 10⟩,
            ⟨3, 1, 1, ⟨2024, 6, 1⟩, ⟨2024, 6, 5⟩, "booked", 10⟩],
          [⟨1, 100, 1⟩]⟩ ⟨2024, 5, 1⟩).rooms = [⟨1, "url", none⟩] ∧
      (complete_past_bookings
        ⟨[⟨1, none, none, none⟩], [⟨1, "url", none⟩],
          [⟨1, 1, 1, ⟨2024, 4, 1⟩, ⟨2024, 4, 5⟩, "booked", 10⟩,
            ⟨2, 1, 1, ⟨2024, 4, 1⟩, ⟨2024, 4, 5⟩, "canceled", 10⟩,
            ⟨3, 1, 1, ⟨2024, 6, 1⟩, ⟨2024, 6, 5⟩, "booked", 10⟩],
          [⟨1, 100, 1⟩]⟩ ⟨2024, 5, 1⟩).pays = [⟨1, 100, 1⟩] ∧
      List.Forall₂ (completion_row_contract ⟨2024, 5, 1⟩)
        [⟨1, 1, 1, ⟨2024, 4, 1⟩, ⟨2024, 4, 5⟩, "booked", 10⟩,
          ⟨2, 1, 1, ⟨2024, 4, 1⟩, ⟨2024, 4, 5⟩, "canceled", 10⟩,
          ⟨3, 1, 1, ⟨2024, 6, 1⟩, ⟨2024, 6, 5⟩, "booked", 10⟩]
        (complete_past_bookings
          ⟨[⟨1, none, none, none⟩], [⟨1, "url", none⟩],
            [⟨1, 1, 1, ⟨2024, 4, 1⟩, ⟨2024, 4, 5⟩, "booked", 10⟩,
              ⟨2, 1, 1, ⟨2024, 4, 1⟩, ⟨2024, 4, 5⟩, "canceled", 10⟩,
              ⟨3, 1, 1, ⟨2024, 6, 1⟩, ⟨2024, 6, 5⟩, "booked", 10⟩],
            [⟨1, 100, 1⟩]⟩ ⟨2024, 5, 1⟩).bookings :=
  complete_past_bookings_spec
    ⟨[⟨1, none, none, none⟩], [⟨1, "url", none⟩],
      [⟨1, 1, 1, ⟨2024, 4, 1⟩, ⟨2024, 4, 5⟩, "booked", 10⟩,
        ⟨2, 1, 1, ⟨2024, 4, 1⟩, ⟨2024, 4, 5⟩, "canceled", 10⟩,
        ⟨3, 1, 1, ⟨2024, 6, 1⟩, ⟨2024, 6, 5⟩, "booked", 10⟩],
      [⟨1, 100, 1⟩]⟩ ⟨2024, 5, 1⟩

/-- Sanity: the completion job on the witness table completes exactly row 1. -/
example :
    (complete_past_bookings
        ⟨[], [],
          [⟨1, 1, 1, ⟨2024, 4, 1⟩, ⟨2024, 4, 5⟩, "booked", 10⟩,
            ⟨2, 1, 1, ⟨2024, 4, 1⟩, ⟨2024, 4, 5⟩, "canceled", 10⟩,
            ⟨3, 1, 1, ⟨2024, 6, 1⟩, ⟨2024, 6, 5⟩, "booked", 10⟩],
          []⟩ ⟨2024, 5, 1⟩).bookings =
      [⟨1, 1, 1, ⟨2024, 4, 1⟩, ⟨2024, 4, 5⟩, "completed", 10⟩,
        ⟨2, 1, 1, ⟨2024, 4, 1⟩, ⟨2024, 4, 5⟩, "canceled", 10⟩,
        ⟨3, 1, 1, ⟨2024, 6, 1⟩, ⟨2024, 6, 5⟩, "booked", 10⟩] := by rfl

/-- SQL `SUM(pays.summ)` over the `LEFT JOIN` group of one booking: `NULL`
(here `none`) when the booking has no payments. -/
def total_payment (pays : List Pay) (booking_id : Int) : Option Int :=
  if (pays.filter (fun p => p.id_booking == booking_id)).isEmpty then
    none
  else
    some (((pays.filter (fun p => p.id_booking == booking_id)).map Pay.summ).sum)

/-- The Python post-processing of each row in the four report queries:
`int(total_payment) if total_payment is not None else 0`. -/
def details_total (pays : List Pay) (booking_id : Int) : Int :=
  match total_payment pays booking_id with
  | none => 0
  | some t => t

/-- The two inner `JOIN`s (`.join(self.model.user)`, `.join(self.model.room)`)
of the report queries: the booking row survives only when its foreign keys
resolve. -/
def join_user_room (db : DBState) (b : Booking) : Bool :=
  db.users.any (fun u => u.id == b.user_id) && db.rooms.any (fun r => r.id == b.room_id)

/-- `BookingDAO.get_bookings_with_details_date_start` (`app/dao/dao.py`
lines 51-88): today's check-ins with their payment totals. -/
def get_bookings_with_details_date_start (db : DBState) (today : Date) :
    List (Booking × Int) :=
  (db.bookings.filter (fun b => join_user_room db b && b.date_start == today)).map
    (fun b => (b, details_total db.pays b.id))

/-- `BookingDAO.get_bookings_with_details_date_end` (`app/dao/dao.py`
lines 90-127): today's check-outs with their payment totals. -/
def get_bookings_with_details_date_end (db : DBState) (today : Date) :
    List (Booking × Int) :=
  (db.bookings.filter (fun b => join_user_room db b && b.date_end == today)).map
    (fun b => (b, details_total db.pays b.id))

/-- `BookingDAO.get_bookings_with_details_year` (`app/dao/dao.py`
lines 129-166): a room's bookings whose `date_start` falls in a given year. -/
def get_bookings_with_details_year (db : DBState) (room_id year : Int) :
    List (Booking × Int) :=
  (db.bookings.filter
      (fun b => join_user_room db b && b.room_id == room_id && b.date_start.year == year)).map
    (fun b => (b, details_total db.pays b.id))

/-- `BookingDAO.get_bookings_with_details` (`app/dao/dao.py` lines 168-206):
a room's bookings whose `date_end` has not passed.  (The source compares the
`Date` column against the current timestamp; it is embedded as the date
comparison `today <= date_end`.) -/
def get_bookings_with_details (db : DBState) (room_id : Int) (today : Date) :
    List (Booking × Int) :=
  (db.bookings.filter
      (fun b => join_user_room db b && b.room_id == room_id && Date.leb today b.date_end)).map
    (fun b => (b, details_total db.pays b.id))

/-- The specification's derived quantity: the sum of the `summ` amounts of the
Pay rows referencing a booking. -/
def pay_sum (pays : List Pay) (booking_id : Int) : Int :=
  ((pays.filter (fun p => p.id_booking == booking_id)).map Pay.summ).sum

theorem details_total_eq_pay_sum (pays : List Pay) (booking_id : Int) :
    details_total pays booking_id = pay_sum pays booking_id := by
  unfold details_total total_payment pay_sum
  by_cases h : (pays.filter (fun p => p.id_booking == booking_id)).isEmpty = true
  · rw [if_pos h]
    rw [List.isEmpty_iff] at h
    rw [h]
    rfl
  · rw [if_neg h]

theorem mem_report_total (db : DBState) (cond : Booking → Bool) (p : Booking × Int)
    (hp : p ∈ (db.bookings.filter cond).map (fun b => (b, details_total db.pays b.id))) :
    p.2 = pay_sum db.pays p.1.id := by
  rcases List.mem_map.mp hp with ⟨b, _, rfl⟩
  exact details_total_eq_pay_sum db.pays b.id

/-- C8: in every report query (today's check-ins, today's check-outs,
per-year, current period) the reported total of a returned booking equals the
sum of the `summ` amounts of the Pay rows referencing it, and a booking with
no Pay rows reports 0; the total is recomputed from the `pays` table on each
query (the `Booking` row carries no such column). -/
theorem report_totals_are_pay_sums (db : DBState) (today : Date) (room_id year : Int) :
    (∀ p ∈ get_bookings_with_details_date_start db today, p.2 = pay_sum db.pays p.1.id) ∧
      (∀ p ∈ get_bookings_with_details_date_end db today, p.2 = pay_sum db.pays p.1.id) ∧
      (∀ p ∈ get_bookings_with_details_year db room_id year, p.2 = pay_sum db.pays p.1.id) ∧
      (∀ p ∈ get_bookings_with_details db room_id today, p.2 = pay_sum db.pays p.1.id) ∧
      (∀ booking_id : Int,
        db.pays.filter (fun q => q.id_booking == booking_id) = [] →
          pay_sum db.pays booking_id = 0) := by
  refine ⟨?_, ?_, ?_, ?_, ?_⟩
  · intro p hp
    exact mem_report_total db _ p hp
  · intro p hp
    exact mem_report_total db _ p hp
  · intro p hp
    exact mem_report_total db _ p hp
  · intro p hp
    exact mem_report_total db _ p hp
  · intro booking_id hnone
    unfold pay_sum
    rw [hnone]
    rfl

/-- Concrete database for the C8 witness: one booking with two payments. -/
def sample_db_reports : DBState :=
  ⟨[⟨1, none, none, none⟩], [⟨1, "url", none⟩],
    [⟨1, 1, 1, ⟨2024, 6, 1⟩, ⟨2024, 6, 5⟩, "booked", 1000⟩],
    [⟨1, 100, 1⟩, ⟨2, 250, 1⟩]⟩

/-- Witness for the C8 theorem at a concrete database where the check-in
report is nonempty (and indeed reports 350 = 100 + 250). -/
theorem report_totals_are_pay_sums_witness :
    ((∀ p ∈ get_bookings_with_details_date_start sample_db_reports ⟨2024, 6, 1⟩,
        p.2 = pay_sum sample_db_reports.pays p.1.id) ∧
      (∀ p ∈ get_bookings_with_details_date_end sample_db_reports ⟨2024, 6, 1⟩,
        p.2 = pay_sum sample_db_reports.pays p.1.id) ∧
      (∀ p ∈ get_bookings_with_details_year sample_db_reports 1 2024,
        p.2 = pay_sum sample_db_reports.pays p.1.id) ∧
      (∀ p ∈ get_bookings_with_details sample_db_reports 1 ⟨2024, 6, 1⟩,
        p.2 = pay_sum sample_db_reports.pays p.1.id) ∧
      (∀ booking_id : Int,
        sample_db_reports.pays.filter (fun q => q.id_booking == booking_id) = [] →
          pay_sum sample_db_reports.pays booking_id = 0)) :=
  report_totals_are_pay_sums sample_db_reports ⟨2024, 6, 1⟩ 1 2024

/-- Sanity: the check-in report on the witness database reports 350. -/
example :
    get_bookings_with_details_date_start sample_db_reports ⟨2024, 6, 1⟩ =
      [(⟨1, 1, 1, ⟨2024, 6, 1⟩, ⟨2024, 6, 5⟩, "booked", 1000⟩, 350)] := by rfl

/-- Python `str.replace(c, "")` for a one-character pattern: removes every
occurrence of `c`. -/
def removeChar (c : Char) : List Char → List Char
  | [] => []
  | x :: xs => if x == c then removeChar c xs else x :: removeChar c xs

/-- Python `str.replace("+7", "8")`: scans left to right, replacing each
non-overlapping occurrence of `+7` and continuing after the replacement. -/
def replacePlus7 : List Char → List Char
  | [] => []
  | [x] => [x]
  | x :: y :: rest =>
    if x == '+' && y == '7' then '8' :: replacePlus7 rest
    else x :: replacePlus7 (y :: rest)

/-- The `cleaned_phone` expression of `on_phone_input`
(`app/bot/booking/handlers.py` lines 18-22): `.replace(' ', '')`,
`.replace('(', '')`, `.replace(')', '')`, `.replace('+7', '8')`,
`.replace('-', '')`, in that order. -/
def on_phone_input_cleaned (s : List Char) : List Char :=
  removeChar '-' (replacePlus7 (removeChar ')' (removeChar '(' (removeChar ' ' s))))

/-- The `cleaned_phone` expression of the admin `search_user`
(`app/bot/admin/router.py` lines 189-193); textually the same chain. -/
def search_user_cleaned (s : List Char) : List Char :=
  removeChar '-' (replacePlus7 (removeChar ')' (removeChar '(' (removeChar ' ' s))))

/-- Python `str.isdigit()` restricted to the ASCII range that phone input
uses: nonempty and every character in `0`-`9`. -/
def py_isdigit (s : List Char) : Bool :=
  !s.isEmpty && s.all (fun c => decide ('0' ≤ c) && decide (c ≤ '9'))

/-- The acceptance test both handlers run on the cleaned string:
`isdigit() and len(...) == 11 and startswith('8')`. -/
def phone_format_ok (s : List Char) : Bool :=
  py_isdigit s && s.length == 11 && s.head? == some '8'

/-- Decision of `on_phone_input`: on acceptance the cleaned string is stored
in `dialog_data["phone_nom"]` and passed to the user lookup; on rejection the
handler answers with a format error and stays in the same state. -/
def on_phone_input (s : List Char) : Option (List Char) :=
  if phone_format_ok (on_phone_input_cleaned s) then
    some (on_phone_input_cleaned s)
  else
    none

/-- Decision of the admin `search_user`: on acceptance the cleaned string is
the lookup key for `find_one_or_none`; on rejection the admin is re-prompted. -/
def search_user_lookup (s : List Char) : Option (List Char) :=
  if phone_format_ok (search_user_cleaned s) then
    some (search_user_cleaned s)
  else
    none

/-- Normalization in the order the claim words it: first delete all spaces,
parentheses and hyphens, then replace `+7` with `8`. -/
def claimed_phone_normalization (s : List Char) : List Char :=
  replacePlus7 (removeChar '-' (removeChar ')' (removeChar '(' (removeChar ' ' s))))

/-- C9 counterexample: on the input `+-79991234567` the claim's normalization
(hyphens deleted before the `+7` rewrite) yields `89991234567`, an 11-digit
string starting with `8`, so the claim says the input is accepted; the code
deletes hyphens only after the `+7` rewrite, obtains `+79991234567`, and
rejects it. -/
theorem phone_order_counterexample :
    phone_format_ok (claimed_phone_normalization
        ['+', '-', '7', '9', '9', '9', '1', '2', '3', '4', '5', '6', '7']) = true ∧
      on_phone_input ['+', '-', '7', '9', '9', '9', '1', '2', '3', '4', '5', '6', '7'] =
        none :=
  ⟨rfl, rfl⟩

/-- C9 (amended): both entry points clean the input with the identical chain —
spaces, then parentheses, then the substring `+7` rewritten to `8`, then
hyphens — a phone is accepted iff the cleaned string is 11 digits starting
with `8`, and on acceptance the cleaned string itself is the lookup key in
both entry points. -/
theorem phone_normalization_amended (s : List Char) :
    search_user_cleaned s = on_phone_input_cleaned s ∧
      (on_phone_input s = some (on_phone_input_cleaned s) ↔
        phone_format_ok (on_phone_input_cleaned s) = true) ∧
      (on_phone_input s = none ↔
        phone_format_ok (on_phone_input_cleaned s) = false) ∧
      search_user_lookup s = on_phone_input s := by
  refine ⟨rfl, ?_, ?_, rfl⟩
  · by_cases h : phone_format_ok (on_phone_input_cleaned s) = true
    · simp [on_phone_input, h]
    · simp [on_phone_input, h]
  · by_cases h : phone_format_ok (on_phone_input_cleaned s) = true
    · simp [on_phone_input, h]
    · simp [on_phone_input, h]

/-- Witness for the C9 amended theorem on the well-formed input
`+7 (999) 123-45-67`, which cleans to `89991234567`. -/
theorem phone_normalization_amended_witness :
    search_user_cleaned
        ['+', '7', ' ', '(', '9', '9', '9', ')', ' ', '1', '2', '3', '-', '4', '5', '-', '6', '7'] =
        on_phone_input_cleaned
          ['+', '7', ' ', '(', '9', '9', '9', ')', ' ', '1', '2', '3', '-', '4', '5', '-', '6', '7'] ∧
      (on_phone_input
          ['+', '7', ' ', '(', '9', '9', '9', ')', ' ', '1', '2', '3', '-', '4', '5', '-', '6', '7'] =
          some (on_phone_input_cleaned
            ['+', '7', ' ', '(', '9', '9', '9', ')', ' ', '1', '2', '3', '-', '4', '5', '-', '6', '7']) ↔
        phone_format_ok (on_phone_input_cleaned
            ['+', '7', ' ', '(', '9', '9', '9', ')', ' ', '1', '2', '3', '-', '4', '5', '-', '6', '7']) =
          true) ∧
      (on_phone_input
          ['+', '7', ' ', '(', '9', '9', '9', ')', ' ', '1', '2', '3', '-', '4', '5', '-', '6', '7'] =
          none ↔
        phone_format_ok (on_phone_input_cleaned
            ['+', '7', ' ', '(', '9', '9', '9', ')', ' ', '1', '2', '3', '-', '4', '5', '-', '6', '7']) =
          false) ∧
      search_user_lookup
          ['+', '7', ' ', '(', '9', '9', '9', ')', ' ', '1', '2', '3', '-', '4', '5', '-', '6', '7'] =
        on_phone_input
          ['+', '7', ' ', '(', '9', '9', '9', ')', ' ', '1', '2', '3', '-', '4', '5', '-', '6', '7'] :=
  phone_normalization_amended
    ['+', '7', ' ', '(', '9', '9', '9', ')', ' ', '1', '2', '3', '-', '4', '5', '-', '6', '7']

/-- Sanity: the well-formed input is accepted and cleans to `89991234567`. -/
example :
    on_phone_input
        ['+', '7', ' ', '(', '9', '9', '9', ')', ' ', '1', '2', '3', '-', '4', '5', '-', '6', '7'] =
      some ['8', '9', '9', '9', '1', '2', '3', '4', '5', '6', '7'] := by rfl

/-- Python truthiness of the checker's result, as tested by `if slots:` and
`if check:` in `app/bot/booking/handlers.py`: `None` and `False` both take the
`else` branch. -/
def py_truthy : Option Bool → Bool
  | none => false
  | some b => b

/-- `process_date_end_selected` (`app/bot/booking/handlers.py` lines 89-106):
`true` when the wizard advances past date selection, `false` when it returns
to `booking_date_start`; an exception from the checker would propagate. -/
def process_date_end_selected (db : DBState) (db_error : Bool) (room_id : Int)
    (ds de : Date) : Except PyExc Bool :=
  match check_available_bookings db db_error room_id ds de with
  | Except.error e => Except.error e
  | Except.ok slots => Except.ok (py_truthy slots)

/-- `on_confirmation` (`app/bot/booking/handlers.py` lines 124-149): re-checks
availability and only on a truthy result inserts the new Booking row with
status `booked`; otherwise the state is unchanged and no row is created. -/
def on_confirmation (db : DBState) (db_error : Bool) (new_id user_id room_id : Int)
    (ds de : Date) (cost : Int) : Except PyExc (DBState × Bool) :=
  match check_available_bookings db db_error room_id ds de with
  | Except.error e => Except.error e
  | Except.ok check =>
    if py_truthy check then
      Except.ok
        (⟨db.users, db.rooms,
          db.bookings ++ [⟨new_id, user_id, room_id, ds, de, "booked", cost⟩],
          db.pays⟩, true)
    else
      Except.ok (db, false)

/-- C10: the checker never propagates an exception — it always returns a value
(`None` on an invalid range or a storage failure) — and both booking-workflow
call sites treat `None` exactly like `false`: the wizard goes back to date
selection and the confirmation step creates no Booking row (fail-closed). -/
theorem check_never_raises_fail_closed (db : DBState) (db_error : Bool)
    (new_id user_id room_id : Int) (ds de : Date) (cost : Int) :
    (∃ v, check_available_bookings db db_error room_id ds de = Except.ok v) ∧
      ((Date.leb de ds = true ∨ db_error = true) →
        check_available_bookings db db_error room_id ds de = Except.ok none) ∧
      py_truthy none = py_truthy (some false) ∧
      (check_available_bookings db db_error room_id ds de = Except.ok none →
        process_date_end_selected db db_error room_id ds de = Except.ok false ∧
          on_confirmation db db_error new_id user_id room_id ds de cost =
            Except.ok (db, false)) := by
  refine ⟨?_, ?_, rfl, ?_⟩
  · unfold check_available_bookings
    cases h : check_available_bookings_body db db_error room_id ds de with
    | ok b => exact ⟨some b, rfl⟩
    | error e => cases e <;> exact ⟨none, rfl⟩
  · intro h
    rcases h with hle | hdb
    · simp [check_available_bookings, check_available_bookings_body, hle]
    · by_cases hle : Date.leb de ds = true
      · simp [check_available_bookings, check_available_bookings_body, hle]
      · simp [check_available_bookings, check_available_bookings_body, hle, hdb]
  · intro h
    constructor
    · unfold process_date_end_selected
      rw [h]
      rfl
    · unfold on_confirmation
      rw [h]
      rfl

/-- Witness for the C10 theorem at an invalid range (start = end) on a
nonempty bookings table. -/
theorem check_never_raises_fail_closed_witness :
    (∃ v, check_available_bookings
        ⟨[], [], [⟨1, 1, 1, ⟨2024, 3, 1⟩, ⟨2024, 3, 10⟩, "booked", 0⟩], []⟩
        false 1 ⟨2024, 3, 4⟩ ⟨2024, 3, 4⟩ = Except.ok v) ∧
      ((Date.leb ⟨2024, 3, 4⟩ ⟨2024, 3, 4⟩ = true ∨ false = true) →
        check_available_bookings
            ⟨[], [], [⟨1, 1, 1, ⟨2024, 3, 1⟩, ⟨2024, 3, 10⟩, "booked", 0⟩], []⟩
            false 1 ⟨2024, 3, 4⟩ ⟨2024, 3, 4⟩ = Except.ok none) ∧
      py_truthy none = py_truthy (some false) ∧
      (check_available_bookings
          ⟨[], [], [⟨1, 1, 1, ⟨2024, 3, 1⟩, ⟨2024, 3, 10⟩, "booked", 0⟩], []⟩
          false 1 ⟨2024, 3, 4⟩ ⟨2024, 3, 4⟩ = Except.ok none →
        process_date_end_selected
            ⟨[], [], [⟨1, 1, 1, ⟨2024, 3, 1⟩, ⟨2024, 3, 10⟩, "booked", 0⟩], []⟩
            false 1 ⟨2024, 3, 4⟩ ⟨2024, 3, 4⟩ = Except.ok false ∧
          on_confirmation
              ⟨[], [], [⟨1, 1, 1, ⟨2024, 3, 1⟩, ⟨2024, 3, 10⟩, "booked", 0⟩], []⟩
              false 2 1 1 ⟨2024, 3, 4⟩ ⟨2024, 3, 4⟩ 500 =
            Except.ok
              (⟨[], [], [⟨1, 1, 1, ⟨2024, 3, 1⟩, ⟨2024, 3, 10⟩, "booked", 0⟩], []⟩, false)) :=
  check_never_raises_fail_closed
    ⟨[], [], [⟨1, 1, 1, ⟨2024, 3, 1⟩, ⟨2024, 3, 10⟩, "booked", 0⟩], []⟩
    false 2 1 1 ⟨2024, 3, 4⟩ ⟨2024, 3, 4⟩ 500

/-- Sanity: the spec's back-to-back scenario. -/
example :
    check_available_bookings
      ⟨[], [], [⟨1, 1, 1, ⟨2024, 1, 1⟩, ⟨2024, 1, 5⟩, "booked", 0⟩], []⟩
      false 1 ⟨2024, 1, 5⟩ ⟨2024, 1, 10⟩ = Except.ok (some true) := by rfl

/-- Sanity: identical intervals conflict. -/
example :
    check_available_bookings
      ⟨[], [], [⟨1, 1, 1, ⟨2024, 3, 1⟩, ⟨2024, 3, 3⟩, "booked", 0⟩], []⟩
      false 1 ⟨2024, 3, 1⟩ ⟨2024, 3, 3⟩ = Except.ok (some false) := by rfl

end HotelApp
